import Mathlib

/-!
Verification of the cross-domain token-exchange chain and the authenticated
MCP session layer of the okta-secure-ai-agent-example repository.

The definitions below are a shallow embedding of the TypeScript sources:
  * `packages/todo0/src/middleware/requireMcpAuth.ts` (the Access Gate),
  * `packages/todo0/src/mcp-server.ts` (session registry, tool registrations),
  * `packages/todo0/src/services/todo-service.ts` (todo CRUD),
  * `packages/agent0/src/auth/token-exchange.ts` (two-hop token exchange),
  * `packages/agent0/src/client.ts` (TODO_ACCESS_TOKEN environment plumbing).
Network calls are modelled by explicit oracles, the process environment and
the session maps by explicit state passing.
-/

namespace SecureAgent

/-! ## Access Gate: requireMcpAuth.ts -/

/-- Decoded JWT claims as used by the middleware (`McpAuthClaims` plus the
verification-relevant claims).  `sigOk` abstracts whether the token's
signature verifies against the published key set of the issuer named in its
`iss` claim; the external `@okta/jwt-verifier` dependency is modelled from
its configuration in `requireMcpAuth.ts`: it checks signature, issuer,
audience and expiry. -/
structure Jwt where
  sub : String
  iss : String
  aud : String
  exp : Nat
  scp : Option (List String)
  cid : Option String
  sigOk : Bool
deriving Repr, DecidableEq

/-- Configuration of the verifier: `MCP_OKTA_ISSUER` and
`MCP_EXPECTED_AUDIENCE` (passed both via `assertClaims.aud` and as the
`expectedAudience` argument of `verifyAccessToken`). -/
structure VerifierConfig where
  issuer : String
  expectedAudience : String
deriving Repr, DecidableEq

/-- Failure modes of `oktaJwtVerifier.verifyAccessToken` (all of them are
thrown, and the middleware maps every one of them to a 401 response). -/
inductive VerifyError where
  | malformed
  | badSignature
  | audienceMismatch
  | expired
deriving Repr, DecidableEq

/-- The regex match `authHeader.match(/^Bearer (.+)$/)`: succeeds exactly
when the header is `Bearer ` followed by a nonempty remainder (`.` does not
match a newline). -/
def parseBearer (header : String) : Option String :=
  match header.data with
  | 'B' :: 'e' :: 'a' :: 'r' :: 'e' :: 'r' :: ' ' :: rest =>
    if rest ≠ [] ∧ ¬ rest.contains '\n' then some (String.mk rest) else none
  | _ => none

/-- `oktaJwtVerifier.verifyAccessToken(accessToken, expectedAudience)`.
`decode` is the ambient JWT decoding: which claims a given compact token
string carries (`none` when the string is not a JWT at all). -/
def verifyAccessToken (decode : String → Option Jwt) (cfg : VerifierConfig)
    (now : Nat) (tokenStr : String) : Except VerifyError Jwt :=
  match decode tokenStr with
  | none => .error .malformed
  | some tok =>
    if tok.sigOk = false then .error .badSignature
    else if tok.iss ≠ cfg.issuer then .error .badSignature
    else if tok.aud ≠ cfg.expectedAudience then .error .audienceMismatch
    else if tok.exp ≤ now then .error .expired
    else .ok tok

/-- Outcome of the `requireMcpAuth` middleware: a 401 JSON response, a 403
JSON response, or `next()` with the verified claims attached to the
request. -/
inductive AuthOutcome where
  | unauthenticated (message : String)
  | forbidden (message : String)
  | next (claims : Jwt)
deriving Repr, DecidableEq

/-- HTTP status of a middleware rejection (`none` when the protected handler
is allowed to run). -/
def authHttpStatus : AuthOutcome → Option Nat
  | .unauthenticated _ => some 401
  | .forbidden _ => some 403
  | .next _ => none

/-- `verifyScopesClaim(claims, expectedScopes)`: every expected scope must be
present in the token's `scp` claim; an absent `scp` claim fails. -/
def verifyScopesClaim (scp : Option (List String)) (expectedScopes : List String) : Bool :=
  match scp with
  | some scopes => expectedScopes.all (fun e => scopes.contains e)
  | none => false

/-- The `requireMcpAuth` middleware: parse the Bearer header, verify the
token, check the `mcp:connect` scope, then `next()`. -/
def requireMcpAuth (decode : String → Option Jwt) (cfg : VerifierConfig)
    (now : Nat) (authHeader : String) : AuthOutcome :=
  match parseBearer authHeader with
  | none =>
    .unauthenticated "Missing or invalid Authorization header. MCP connections require a valid Bearer token."
  | some accessToken =>
    match verifyAccessToken decode cfg now accessToken with
    | .error _ => .unauthenticated "Invalid or expired token"
    | .ok jwt =>
      if verifyScopesClaim jwt.scp ["mcp:connect"] = false then
        .forbidden "Insufficient scope"
      else
        .next jwt

/-! ## Session registry: mcp-server.ts bootstrap -/

/-- `Map.get` on a JavaScript `Map` modelled as an association list. -/
def mapGet {α : Type} : List (String × α) → String → Option α
  | [], _ => none
  | (k', v) :: rest, k => if k' = k then some v else mapGet rest k

/-- `Map.delete`. -/
def mapDelete {α : Type} (m : List (String × α)) (k : String) : List (String × α) :=
  m.filter (fun p => p.1 != k)

/-- `Map.set` (overwrites any previous binding of the key). -/
def mapSet {α : Type} (m : List (String × α)) (k : String) (v : α) : List (String × α) :=
  (k, v) :: mapDelete m k

/-- The two registry maps of `bootstrap()`: `transports` (sessionId to the
transport handle, modelled by a numeric handle id) and `sessionAuth`
(sessionId to the claims of the authenticated user that created it). -/
structure ServerState where
  transports : List (String × Nat)
  sessionAuth : List (String × Jwt)
deriving Repr, DecidableEq

/-- The `GET /sse` handler after `requireMcpAuth` has attached `mcpUser`: a
new transport with a fresh `sessionId` is registered in both maps. -/
def handleSse (st : ServerState) (mcpUser : Jwt) (sid : String) (handle : Nat) : ServerState :=
  { transports := mapSet st.transports sid handle
    sessionAuth := mapSet st.sessionAuth sid mcpUser }

/-- The `res.on('close')` callback of `GET /sse`: both registry entries of
the session are deleted. -/
def handleSseClose (st : ServerState) (sid : String) : ServerState :=
  { transports := mapDelete st.transports sid
    sessionAuth := mapDelete st.sessionAuth sid }

/-- Outcome of the `POST /messages` handler: 400 invalid session, 403
session/subject mismatch, or the message is routed to the transport handle
via `transport.handlePostMessage`. -/
inductive MessagesResponse where
  | invalidSession
  | forbiddenMismatch
  | handled (handle : Nat)
deriving Repr, DecidableEq

/-- HTTP status of a `POST /messages` rejection. -/
def messagesHttpStatus : MessagesResponse → Option Nat
  | .invalidSession => some 400
  | .forbiddenMismatch => some 403
  | .handled _ => none

/-- The `POST /messages` handler body (it runs after `requireMcpAuth`, so
`mcpUser` is the verified claims of the current request): look up the
transport, check that the session belongs to the authenticated user, then
route. -/
def handleMessages (st : ServerState) (sessionId : String) (mcpUser : Jwt) :
    MessagesResponse × ServerState :=
  match mapGet st.transports sessionId with
  | none => (.invalidSession, st)
  | some handle =>
    match mapGet st.sessionAuth sessionId with
    | none => (.forbiddenMismatch, st)
    | some sessionUser =>
      if sessionUser.sub ≠ mcpUser.sub then (.forbiddenMismatch, st)
      else (.handled handle, st)

/-! ## Todo service and MCP tools: todo-service.ts, mcp-server.ts -/

/-- A todo record (Prisma model). -/
structure Todo where
  id : Nat
  title : String
  completed : Bool
deriving Repr, DecidableEq

/-- The todo table, newest first, with the autoincrement counter. -/
structure TodoState where
  todos : List Todo
  nextId : Nat
deriving Repr, DecidableEq

/-- `TodoService.createTodo`: insert a new incomplete todo. -/
def createTodo (st : TodoState) (title : String) : Todo × TodoState :=
  let t : Todo := { id := st.nextId, title := title, completed := false }
  (t, { todos := t :: st.todos, nextId := st.nextId + 1 })

/-- `TodoService.getAllTodos` (ordered by id descending, which is the store
order here). -/
def getAllTodos (st : TodoState) : List Todo :=
  st.todos

/-- `TodoService.toggleTodo`: `null` when the id is absent, otherwise flip
`completed`. -/
def toggleTodo (st : TodoState) (id : Nat) : Option Todo × TodoState :=
  match st.todos.find? (fun t => t.id == id) with
  | none => (none, st)
  | some t =>
    let t' : Todo := { t with completed := !t.completed }
    (some t', { st with todos := st.todos.map (fun u => if u.id = id then t' else u) })

/-- `TodoService.deleteTodo`: `true` exactly when a record was deleted. -/
def deleteTodo (st : TodoState) (id : Nat) : Bool × TodoState :=
  if st.todos.any (fun t => t.id == id) then
    (true, { st with todos := st.todos.filter (fun t => t.id != id) })
  else
    (false, st)

/-- The four registered MCP tools of `mcp-server.ts`. -/
inductive ToolCall where
  | createTodo (title : String)
  | getTodos
  | toggleTodo (id : Nat)
  | deleteTodo (id : Nat)
deriving Repr, DecidableEq

/-- Result content of a tool handler (`success: true` or a Not Found error
payload). -/
inductive ToolResult where
  | success
  | notFound
deriving Repr, DecidableEq

/-- Dispatch of a routed MCP message to the registered tool handler.  Note
that the tool handlers call the todo service directly: they perform no
scope check of their own. -/
def runTool : ToolCall → TodoState → ToolResult × TodoState
  | .createTodo title, st =>
    let r := createTodo st title
    (.success, r.2)
  | .getTodos, st => (.success, st)
  | .toggleTodo id, st =>
    match toggleTodo st id with
    | (none, st') => (.notFound, st')
    | (some _, st') => (.success, st')
  | .deleteTodo id, st =>
    match deleteTodo st id with
    | (false, st') => (.notFound, st')
    | (true, st') => (.success, st')

/-- Whether a tool mutates the todo store (`create-todo`, `toggle-todo`,
`delete-todo`; `get-todos` is read-only). -/
def isMutating : ToolCall → Bool
  | .getTodos => false
  | _ => true

/-- Combined outcome of a tool invocation sent through `POST /messages`. -/
inductive PipelineResult where
  | unauthenticated
  | forbidden
  | invalidSession
  | toolRan (r : ToolResult)
deriving Repr, DecidableEq

/-- The full path of one MCP tool invocation on the todo server:
`requireMcpAuth` middleware, then the `POST /messages` handler, then (when
routed) the registered tool handler. -/
def postMessagesToolCall (decode : String → Option Jwt) (cfg : VerifierConfig)
    (now : Nat) (st : ServerState) (todoSt : TodoState)
    (authHeader sessionId : String) (call : ToolCall) :
    PipelineResult × ServerState × TodoState :=
  match requireMcpAuth decode cfg now authHeader with
  | .unauthenticated _ => (.unauthenticated, st, todoSt)
  | .forbidden _ => (.forbidden, st, todoSt)
  | .next mcpUser =>
    match handleMessages st sessionId mcpUser with
    | (.invalidSession, st') => (.invalidSession, st', todoSt)
    | (.forbiddenMismatch, st') => (.forbidden, st', todoSt)
    | (.handled _, st') =>
      let r := runTool call todoSt
      (.toolRan r.1, st', r.2)

/-! ## Token exchange: token-exchange.ts -/

/-- `TokenExchangeConfig` (from `createTokenExchangeConfig`). -/
structure TokenExchangeConfig where
  oktaDomain : String
  clientId : String
  privateKeyFile : String
  targetAudience : String
  tokenEndpoint : String
  resourceTokenEndpoint : Option String
deriving Repr, DecidableEq

/-- The Okta Org authorization server token endpoint called by hop 1 (both
the hop-1 client assertion audience and the hop-1 POST target are built
from `oktaDomain` with this literal path). -/
def orgTokenUrl (cfg : TokenExchangeConfig) : String :=
  "https://" ++ cfg.oktaDomain ++ "/oauth2/v1/token"

/-- The resource authorization server token endpoint called by hop 2:
`config.resourceTokenEndpoint` with the `/oauth2/default/v1/token` fallback. -/
def resourceTokenUrl (cfg : TokenExchangeConfig) : String :=
  cfg.resourceTokenEndpoint.getD ("https://" ++ cfg.oktaDomain ++ "/oauth2/default/v1/token")

/-- `Math.random().toString(36).substring(7)`: `draw` is the base-36
rendering of the fresh random draw (a string such as `0.k3j2n4mda`) and the
`jti` keeps its characters from index 7 on. -/
def jtiFromDraw (draw : String) : String :=
  String.mk (draw.data.drop 7)

/-- The signed payload produced by `createClientAssertion(audience)`:
`jti` from a fresh random draw, `issuer = subject = clientId`,
`expiresIn: 5m`, fixed `keyid`. -/
structure ClientAssertion where
  jti : String
  iss : String
  sub : String
  aud : String
  iat : Nat
  exp : Nat
  kid : String
deriving Repr, DecidableEq

/-- `createClientAssertion`: mint a client assertion for one token-endpoint
call.  `draw` is the `Math.random().toString(36)` value consumed by this
mint, `now` the signing time in seconds. -/
def createClientAssertion (clientId audience draw : String) (now : Nat) : ClientAssertion :=
  { jti := jtiFromDraw draw
    iss := clientId
    sub := clientId
    aud := audience
    iat := now
    exp := now + 300
    kid := "{yourKID}" }

/-- The hop-1 form body of `exchangeIdTokenForIdJag` together with the URL
it is POSTed to. -/
structure Hop1Request where
  url : String
  grantType : String
  requestedTokenType : String
  subjectToken : String
  subjectTokenType : String
  audience : String
  clientId : String
  scope : String
  clientAssertionType : String
  clientAssertion : ClientAssertion
deriving Repr, DecidableEq

/-- The hop-2 form body of `exchangeIdJagForAccessToken` together with the
URL it is POSTed to. -/
structure Hop2Request where
  url : String
  grantType : String
  assertion : String
  clientAssertionType : String
  clientAssertion : ClientAssertion
deriving Repr, DecidableEq

/-- Build the hop-1 request: the token-exchange grant presenting the ID
token as subject token, authenticated with a client assertion freshly
minted for the Org token endpoint (the same URL the request is sent to). -/
def mkHop1Request (cfg : TokenExchangeConfig) (idToken draw : String) (now : Nat) :
    Hop1Request :=
  { url := orgTokenUrl cfg
    grantType := "urn:ietf:params:oauth:grant-type:token-exchange"
    requestedTokenType := "urn:ietf:params:oauth:token-type:id-jag"
    subjectToken := idToken
    subjectTokenType := "urn:ietf:params:oauth:token-type:id_token"
    audience := cfg.targetAudience
    clientId := cfg.clientId
    scope := "read:todo0"
    clientAssertionType := "urn:ietf:params:oauth:client-assertion-type:jwt-bearer"
    clientAssertion := createClientAssertion cfg.clientId (orgTokenUrl cfg) draw now }

/-- Build the hop-2 request: the JWT-bearer grant presenting the ID-JAG as
the assertion, authenticated with a second client assertion freshly minted
for the resource token endpoint (the same URL this request is sent to). -/
def mkHop2Request (cfg : TokenExchangeConfig) (idJag draw : String) (now : Nat) :
    Hop2Request :=
  { url := resourceTokenUrl cfg
    grantType := "urn:ietf:params:oauth:grant-type:jwt-bearer"
    assertion := idJag
    clientAssertionType := "urn:ietf:params:oauth:client-assertion-type:jwt-bearer"
    clientAssertion := createClientAssertion cfg.clientId (resourceTokenUrl cfg) draw now }

/-- Body of a successful hop-2 token response. -/
structure AccessTokenResponse where
  access_token : String
  token_type : String
  expires_in : Nat
  scope : Option String
deriving Repr, DecidableEq

/-- The network: what each authorization server answers to a request.  Hop 1
returns the `access_token` field of its response (which actually carries
the ID-JAG); an `error` value carries the provider's error payload. -/
structure World where
  hop1 : Hop1Request → Except String String
  hop2 : Hop2Request → Except String AccessTokenResponse

/-- One outbound token-endpoint call made during the exchange. -/
inductive HopCall where
  | hop1 (r : Hop1Request)
  | hop2 (r : Hop2Request)
deriving Repr, DecidableEq

/-- The JSON body written by `handleCrossAppAccess`:
`noIdToken` is the 401 branch, `keyUnavailable` the 500 private-key branch,
`hop1Failed` the 500 `Token exchange request failed` branch,
`fullSuccess` the 200 body carrying `id_jag` and `access_token`, and
`hop2Failed` the 200 `success: true` body that still carries `id_jag`
together with the resource server's error. -/
inductive ExchangeResponse where
  | noIdToken
  | keyUnavailable
  | hop1Failed (details : String)
  | fullSuccess (idJag : String) (tok : AccessTokenResponse)
  | hop2Failed (idJag : String) (error : String)
deriving Repr, DecidableEq

/-- The `id_jag` field of the response body, when the body has one. -/
def responseIdJag : ExchangeResponse → Option String
  | .fullSuccess j _ => some j
  | .hop2Failed j _ => some j
  | _ => none

/-- Everything `handleCrossAppAccess` emits: the HTTP response body, the
ordered list of outbound token-endpoint calls, and the token values that
get interpolated in full into a console log line (the handler logs the
subject ID token in full; it never interpolates the ID-JAG into a log). -/
structure ExchangeOutcome where
  response : ExchangeResponse
  calls : List HopCall
  loggedFullTokens : List String
deriving Repr, DecidableEq

/-- `TokenExchangeHandler.handleCrossAppAccess`: guard on the session's ID
token and the loaded private key, then hop 1, then (only on hop-1 success)
hop 2.  `draw1`/`draw2` are the random draws consumed by the two client
assertion mints. -/
def handleCrossAppAccess (cfg : TokenExchangeConfig) (privateKeyLoaded : Bool)
    (sessionIdToken : Option String) (w : World) (draw1 draw2 : String) (now : Nat) :
    ExchangeOutcome :=
  match sessionIdToken with
  | none => { response := .noIdToken, calls := [], loggedFullTokens := [] }
  | some idToken =>
    if privateKeyLoaded = false then
      { response := .keyUnavailable, calls := [], loggedFullTokens := [] }
    else
      let r1 := mkHop1Request cfg idToken draw1 now
      match w.hop1 r1 with
      | .error e =>
        { response := .hop1Failed e, calls := [.hop1 r1], loggedFullTokens := [idToken] }
      | .ok idJag =>
        let r2 := mkHop2Request cfg idJag draw2 now
        match w.hop2 r2 with
        | .ok tokResp =>
          { response := .fullSuccess idJag tokResp
            calls := [.hop1 r1, .hop2 r2]
            loggedFullTokens := [idToken] }
        | .error e =>
          { response := .hop2Failed idJag e
            calls := [.hop1 r1, .hop2 r2]
            loggedFullTokens := [idToken] }

/-! ## Agent-side credential plumbing: client.ts, mcp-server.ts TodoService

`client.ts` (`startServerAndConnect`) spawns the MCP server as a separate
OS child process with a copy of the parent's environment
(`spawn('node', [serverScriptPath], { env: { ...process.env, PORT } })`),
and only afterwards starts the UI server that hosts `/cross-app-access`.
`process.env` is per-process in Node: the parent's later assignment
`process.env.TODO_ACCESS_TOKEN = accessToken` mutates the parent's own
environment and never reaches the already-spawned child, while
`TodoService.getAccessToken` in `mcp-server.ts` reads the child's
environment.  The model therefore keeps one `TODO_ACCESS_TOKEN` cell per
process. -/

/-- The `TODO_ACCESS_TOKEN` environment variable of each of the two OS
processes: the `client.ts` parent (which hosts `/cross-app-access`) and
the spawned `mcp-server.ts` child (which hosts `TodoService`). -/
structure ProcEnvs where
  parentTodo : Option String
  childTodo : Option String
deriving Repr, DecidableEq

/-- The spawn in `startServerAndConnect`: the child starts with a copy of
the parent's environment (`env: { ...process.env, PORT: ... }`; the `PORT`
override does not touch `TODO_ACCESS_TOKEN`). -/
def spawnMcpServer (parentTodo : Option String) : ProcEnvs :=
  { parentTodo := parentTodo, childTodo := parentTodo }

/-- The post-spawn events that touch `TODO_ACCESS_TOKEN`: a successful
`/cross-app-access` exchange by some principal, and an MCP tool call by
some session/principal. -/
inductive AgentEvent where
  | exchangeSuccess (principal : String) (accessToken : String)
  | toolCall (sessionId : String) (principal : String)
deriving Repr, DecidableEq

/-- Effect of one post-spawn event: the exchange's assignment
`process.env.TODO_ACCESS_TOKEN = accessToken` runs in the parent process
and writes the parent's variable only; nothing in `mcp-server.ts` writes
the child's variable. -/
def applyEvent (st : ProcEnvs) : AgentEvent → ProcEnvs
  | .exchangeSuccess _ tok => { st with parentTodo := some tok }
  | .toolCall _ _ => st

/-- Both processes' variables after a trace of post-spawn events (oldest
first). -/
def envsAfter (st : ProcEnvs) (tr : List AgentEvent) : ProcEnvs :=
  tr.foldl applyEvent st

/-- `TodoService.getAccessToken`: `process.env.TODO_ACCESS_TOKEN || ''`,
read from the calling process's own environment. -/
def getAccessToken (env : Option String) : String :=
  env.getD ""

/-- The `Authorization` header built by `TodoService.getHeaders`. -/
def getHeadersAuthorization (env : Option String) : String :=
  "Bearer " ++ getAccessToken env

/-- The bearer credential an MCP tool call issued after the trace `tr`
actually carries to the todo backend, for a call made on session
`sessionId` by `principal`: `TodoService` runs in the spawned server
process, so it reads the child's variable. -/
def toolCallCredential (st : ProcEnvs) (tr : List AgentEvent)
    (sessionId principal : String) : String :=
  getHeadersAuthorization (envsAfter st tr).childTodo

/-- The access token of the most recent successful exchange in the trace
(`none` when no exchange succeeded).  This is the claim-side description of
the credential the claim says a tool call resolves to. -/
def lastExchangedToken : List AgentEvent → Option String
  | [] => none
  | e :: rest =>
    match lastExchangedToken rest with
    | some tok => some tok
    | none =>
      match e with
      | .exchangeSuccess _ tok => some tok
      | .toolCall _ _ => none

/-! ## Concrete fixtures for witnesses and counterexamples -/

/-- Fixture: a verifier configuration. -/
def cfgFix : VerifierConfig :=
  { issuer := "https://dev.okta.example/oauth2/mcp", expectedAudience := "mcp://default" }

/-- Fixture: a valid token whose scopes are only `mcp:connect` and
`mcp:tools:read`. -/
def jwtReadOnly : Jwt :=
  { sub := "alice"
    iss := "https://dev.okta.example/oauth2/mcp"
    aud := "mcp://default"
    exp := 1000
    scp := some ["mcp:connect", "mcp:tools:read"]
    cid := some "agent0"
    sigOk := true }

/-- Fixture: a token that is valid in every respect except that its audience
is a different resource's audience. -/
def jwtWrongAud : Jwt :=
  { sub := "alice"
    iss := "https://dev.okta.example/oauth2/mcp"
    aud := "mcp://other-resource"
    exp := 1000
    scp := some ["mcp:connect"]
    cid := some "agent0"
    sigOk := true }

/-- Fixture: a valid token for a different subject. -/
def jwtBob : Jwt :=
  { sub := "bob"
    iss := "https://dev.okta.example/oauth2/mcp"
    aud := "mcp://default"
    exp := 1000
    scp := some ["mcp:connect", "mcp:tools:read", "mcp:tools:manage"]
    cid := some "agent0"
    sigOk := true }

/-- Fixture: the ambient JWT decoding for the token strings used in the
concrete runs. -/
def decodeFix : String → Option Jwt := fun s =>
  if s = "token-read-only" then some jwtReadOnly
  else if s = "token-wrong-aud" then some jwtWrongAud
  else none

/-- Fixture: a registry holding one live session `s1` created by alice. -/
def stFix : ServerState :=
  { transports := [("s1", 7)], sessionAuth := [("s1", jwtReadOnly)] }

/-- Fixture: a token-exchange configuration. -/
def cfgEx : TokenExchangeConfig :=
  { oktaDomain := "dev.okta.example"
    clientId := "agent-client-id"
    privateKeyFile := "agent0-private-key.pem"
    targetAudience := "mcp-auth-server"
    tokenEndpoint := "https://dev.okta.example/oauth2/v1/token"
    resourceTokenEndpoint := some "https://dev.okta.example/oauth2/mcp/v1/token" }

/-- Fixture: a successful hop-2 token response. -/
def tokRespEx : AccessTokenResponse :=
  { access_token := "resource-access-token"
    token_type := "Bearer"
    expires_in := 3600
    scope := some "mcp:connect" }

/-- Fixture: a network on which both hops succeed and hop 1 returns the
ID-JAG value `jag-secret-value`. -/
def wOk : World :=
  { hop1 := fun _ => .ok "jag-secret-value"
    hop2 := fun _ => .ok tokRespEx }

/-! ## Helper lemmas -/

theorem mapGet_mapDelete_self {α : Type} (m : List (String × α)) (k : String) :
    mapGet (mapDelete m k) k = none := by
  induction m with
  | nil => rfl
  | cons hd tl ih =>
    rcases hd with ⟨k', v⟩
    by_cases h : k' = k
    · simpa [mapDelete, List.filter_cons, h] using ih
    · simpa [mapDelete, List.filter_cons, h, mapGet] using ih

theorem envsAfter_childTodo (st : ProcEnvs) (tr : List AgentEvent) :
    (envsAfter st tr).childTodo = st.childTodo := by
  induction tr generalizing st with
  | nil => rfl
  | cons e tl ih =>
    have hstep : envsAfter st (e :: tl) = envsAfter (applyEvent st e) tl := rfl
    rw [hstep, ih]
    cases e with
    | exchangeSuccess p tok => rfl
    | toolCall s p => rfl

theorem envsAfter_parentTodo (st : ProcEnvs) (tr : List AgentEvent) :
    (envsAfter st tr).parentTodo = (lastExchangedToken tr).or st.parentTodo := by
  induction tr generalizing st with
  | nil => rfl
  | cons e tl ih =>
    have hstep : envsAfter st (e :: tl) = envsAfter (applyEvent st e) tl := rfl
    rw [hstep, ih]
    cases hl : lastExchangedToken tl with
    | some t => simp [lastExchangedToken, hl]
    | none =>
      cases e with
      | exchangeSuccess p tok => simp [lastExchangedToken, hl, applyEvent]
      | toolCall s p => simp [lastExchangedToken, hl, applyEvent]

/-! ## Claim theorems -/

/-- C4: a bearer token whose audience claim differs from the configured
expected audience is rejected as unauthenticated (401) by `requireMcpAuth`,
even when its signature, issuer and expiry are otherwise valid. -/
theorem wrong_audience_rejected_unauthenticated
    (decode : String → Option Jwt) (cfg : VerifierConfig) (now : Nat)
    (hdr tokStr : String) (tok : Jwt)
    (hparse : parseBearer hdr = some tokStr)
    (hdec : decode tokStr = some tok)
    (hsig : tok.sigOk = true)
    (hiss : tok.iss = cfg.issuer)
    (hexp : now < tok.exp)
    (haud : tok.aud ≠ cfg.expectedAudience) :
    requireMcpAuth decode cfg now hdr = .unauthenticated "Invalid or expired token" ∧
    authHttpStatus (requireMcpAuth decode cfg now hdr) = some 401 := by
  have hv : verifyAccessToken decode cfg now tokStr = .error .audienceMismatch := by
    simp [verifyAccessToken, hdec, hsig, hiss, haud]
  refine ⟨?_, ?_⟩ <;> simp [requireMcpAuth, hparse, hv, authHttpStatus]

/-- C4 witness: a concrete wrong-audience token is rejected with 401. -/
theorem wrong_audience_rejected_unauthenticated_witness :
    requireMcpAuth decodeFix cfgFix 0 "Bearer token-wrong-aud" =
      .unauthenticated "Invalid or expired token" ∧
    authHttpStatus (requireMcpAuth decodeFix cfgFix 0 "Bearer token-wrong-aud") = some 401 :=
  wrong_audience_rejected_unauthenticated decodeFix cfgFix 0
    "Bearer token-wrong-aud" "token-wrong-aud" jwtWrongAud
    (by rfl) (by rfl) (by rfl) (by rfl) (by decide) (by decide)

/-- C5: the Access Gate performs its checks in order on every request: a
missing/malformed Bearer header gives 401; a signature, issuer, audience or
expiry failure gives 401; a missing required scope on an otherwise valid
token gives 403 (a distinct outcome); and the protected handler runs
(`next`) exactly when the header parses, the token verifies and every
required scope is present. -/
theorem access_gate_check_order (decode : String → Option Jwt)
    (cfg : VerifierConfig) (now : Nat) :
    (∀ hdr, parseBearer hdr = none →
      requireMcpAuth decode cfg now hdr =
        .unauthenticated "Missing or invalid Authorization header. MCP connections require a valid Bearer token." ∧
      authHttpStatus (requireMcpAuth decode cfg now hdr) = some 401) ∧
    (∀ hdr tokStr e, parseBearer hdr = some tokStr →
      verifyAccessToken decode cfg now tokStr = .error e →
      requireMcpAuth decode cfg now hdr = .unauthenticated "Invalid or expired token" ∧
      authHttpStatus (requireMcpAuth decode cfg now hdr) = some 401) ∧
    (∀ hdr tokStr jwt, parseBearer hdr = some tokStr →
      verifyAccessToken decode cfg now tokStr = .ok jwt →
      verifyScopesClaim jwt.scp ["mcp:connect"] = false →
      requireMcpAuth decode cfg now hdr = .forbidden "Insufficient scope" ∧
      authHttpStatus (requireMcpAuth decode cfg now hdr) = some 403) ∧
    (∀ hdr jwt, requireMcpAuth decode cfg now hdr = .next jwt ↔
      ∃ tokStr, parseBearer hdr = some tokStr ∧
        verifyAccessToken decode cfg now tokStr = .ok jwt ∧
        verifyScopesClaim jwt.scp ["mcp:connect"] = true) := by
  refine ⟨?_, ?_, ?_, ?_⟩
  · intro hdr hp
    refine ⟨?_, ?_⟩ <;> simp [requireMcpAuth, hp, authHttpStatus]
  · intro hdr tokStr e hp hv
    refine ⟨?_, ?_⟩ <;> simp [requireMcpAuth, hp, hv, authHttpStatus]
  · intro hdr tokStr jwt hp hv hs
    refine ⟨?_, ?_⟩ <;> simp [requireMcpAuth, hp, hv, hs, authHttpStatus]
  · intro hdr jwt
    constructor
    · intro h
      unfold requireMcpAuth at h
      cases hp : parseBearer hdr with
      | none => simp only [hp] at h; simp at h
      | some tokStr =>
        simp only [hp] at h
        cases hv : verifyAccessToken decode cfg now tokStr with
        | error e => simp only [hv] at h; simp at h
        | ok jwt' =>
          simp only [hv] at h
          by_cases hs : verifyScopesClaim jwt'.scp ["mcp:connect"] = false
          · rw [if_pos hs] at h; simp at h
          · rw [if_neg hs] at h
            have hj : jwt' = jwt := by cases h; rfl
            subst hj
            exact ⟨tokStr, rfl, hv, by simpa using hs⟩
    · rintro ⟨tokStr, hp, hv, hs⟩
      simp [requireMcpAuth, hp, hv, hs]

/-- C5 witness: a request with no Authorization header is rejected with 401
by the first check. -/
theorem access_gate_check_order_witness :
    requireMcpAuth decodeFix cfgFix 0 "" =
      .unauthenticated "Missing or invalid Authorization header. MCP connections require a valid Bearer token." ∧
    authHttpStatus (requireMcpAuth decodeFix cfgFix 0 "") = some 401 :=
  (access_gate_check_order decodeFix cfgFix 0).1 "" (by rfl)

/-- C2: a `POST /messages` request on a live session whose verified token
subject differs from the subject the session was bound to at creation is
rejected with 403 Forbidden, and the registry state (transport handle and
bound subject included) is left unchanged. -/
theorem session_subject_mismatch_rejected (st : ServerState) (sid : String)
    (handle : Nat) (sessionUser mcpUser : Jwt)
    (hT : mapGet st.transports sid = some handle)
    (hA : mapGet st.sessionAuth sid = some sessionUser)
    (hsub : sessionUser.sub ≠ mcpUser.sub) :
    handleMessages st sid mcpUser = (.forbiddenMismatch, st) ∧
    messagesHttpStatus (handleMessages st sid mcpUser).1 = some 403 := by
  have h : handleMessages st sid mcpUser = (.forbiddenMismatch, st) := by
    simp [handleMessages, hT, hA, hsub]
  refine ⟨h, ?_⟩
  rw [h]
  rfl

/-- C2 witness: a request by bob on alice's live session `s1` is rejected
with 403 and the registry is unchanged. -/
theorem session_subject_mismatch_rejected_witness :
    handleMessages stFix "s1" jwtBob = (.forbiddenMismatch, stFix) ∧
    messagesHttpStatus (handleMessages stFix "s1" jwtBob).1 = some 403 :=
  session_subject_mismatch_rejected stFix "s1" 7 jwtReadOnly jwtBob
    (by rfl) (by rfl) (by decide)

/-- C6: once a session's transport closes, its entries are removed from both
registry maps, and every subsequent `POST /messages` with that session
identifier is answered with the invalid-session rejection (400), never
routed to the stale transport handle. -/
theorem closed_session_not_routed (st : ServerState) (sid : String) (mcpUser : Jwt) :
    mapGet (handleSseClose st sid).transports sid = none ∧
    mapGet (handleSseClose st sid).sessionAuth sid = none ∧
    handleMessages (handleSseClose st sid) sid mcpUser =
      (.invalidSession, handleSseClose st sid) ∧
    messagesHttpStatus MessagesResponse.invalidSession = some 400 := by
  refine ⟨mapGet_mapDelete_self _ _, mapGet_mapDelete_self _ _, ?_, rfl⟩
  simp [handleMessages, handleSseClose, mapGet_mapDelete_self]

/-- C1 (code evidence): a mutating tool invoked through the full
`POST /messages` pipeline with a token that lacks `mcp:tools:manage`
(carrying only `mcp:connect` and `mcp:tools:read`) is not rejected: the
middleware checks only `mcp:connect`, the tool handler runs, and the todo
store is mutated. -/
theorem mutating_tool_runs_without_manage_scope :
    verifyScopesClaim jwtReadOnly.scp ["mcp:tools:manage"] = false ∧
    isMutating (ToolCall.createTodo "buy milk") = true ∧
    postMessagesToolCall decodeFix cfgFix 0 stFix { todos := [], nextId := 1 }
        "Bearer token-read-only" "s1" (ToolCall.createTodo "buy milk") =
      (PipelineResult.toolRan ToolResult.success, stFix,
        { todos := [{ id := 1, title := "buy milk", completed := false }], nextId := 2 }) :=
  ⟨rfl, rfl, rfl⟩

/-- C3: in every execution of `handleCrossAppAccess`, if hop 2 is called at
all then hop 1 was called before it and returned successfully; the call
sequence is exactly hop 1 followed by hop 2.  Contrapositively, hop 2 is
never called in an execution where hop 1 fails. -/
theorem hop2_only_after_hop1_success (cfg : TokenExchangeConfig) (pk : Bool)
    (idtok : Option String) (w : World) (d1 d2 : String) (now : Nat) (r2 : Hop2Request)
    (h : HopCall.hop2 r2 ∈ (handleCrossAppAccess cfg pk idtok w d1 d2 now).calls) :
    ∃ idToken idJag,
      idtok = some idToken ∧
      w.hop1 (mkHop1Request cfg idToken d1 now) = Except.ok idJag ∧
      (handleCrossAppAccess cfg pk idtok w d1 d2 now).calls =
        [HopCall.hop1 (mkHop1Request cfg idToken d1 now), HopCall.hop2 r2] := by
  cases idtok with
  | none => simp [handleCrossAppAccess] at h
  | some idToken =>
    by_cases hpk : pk = false
    · simp [handleCrossAppAccess, hpk] at h
    · cases h1 : w.hop1 (mkHop1Request cfg idToken d1 now) with
      | error e => simp [handleCrossAppAccess, hpk, h1] at h
      | ok idJag =>
        cases h2 : w.hop2 (mkHop2Request cfg idJag d2 now) with
        | ok tokResp =>
          simp only [handleCrossAppAccess, if_neg hpk, h1, h2] at h ⊢
          simp at h
          exact ⟨idToken, idJag, rfl, h1, by simp [h]⟩
        | error e =>
          simp only [handleCrossAppAccess, if_neg hpk, h1, h2] at h ⊢
          simp at h
          exact ⟨idToken, idJag, rfl, h1, by simp [h]⟩

/-- C3 witness: on a network where both hops succeed, the execution calls
hop 1 first and hop 2 second. -/
theorem hop2_only_after_hop1_success_witness :
    ∃ idToken idJag,
      (some "id-token-1" : Option String) = some idToken ∧
      wOk.hop1 (mkHop1Request cfgEx idToken "0.rand1" 0) = Except.ok idJag ∧
      (handleCrossAppAccess cfgEx true (some "id-token-1") wOk "0.rand1" "0.rand2" 0).calls =
        [HopCall.hop1 (mkHop1Request cfgEx idToken "0.rand1" 0),
         HopCall.hop2 (mkHop2Request cfgEx "jag-secret-value" "0.rand2" 0)] :=
  hop2_only_after_hop1_success cfgEx true (some "id-token-1") wOk "0.rand1" "0.rand2" 0
    (mkHop2Request cfgEx "jag-secret-value" "0.rand2" 0) (by decide)

/-- C7 counterexample: on a concrete successful execution, the ID-JAG value
returned by hop 1 appears in the JSON response body of the exchange
endpoint (its `id_jag` field) — an output of the exchange other than the
hop-2 request — refuting the claim that it appears in no such output. -/
theorem idjag_in_response_body :
    responseIdJag
        (handleCrossAppAccess cfgEx true (some "id-token-1") wOk "0.rand1" "0.rand2" 0).response
      = some "jag-secret-value" ∧
    (handleCrossAppAccess cfgEx true (some "id-token-1") wOk "0.rand1" "0.rand2" 0).response
      = ExchangeResponse.fullSuccess "jag-secret-value" tokRespEx :=
  ⟨rfl, rfl⟩

/-- C7 amended: the ID-JAG obtained from hop 1 is held in memory and used as
the assertion of the hop-2 request, and it is not interpolated in full into
any log line of the handler; however it is also returned to the caller in
the JSON response body (field `id_jag`), both when hop 2 succeeds and when
hop 2 fails. -/
theorem idjag_exposure_amended (cfg : TokenExchangeConfig) (idToken : String)
    (w : World) (d1 d2 : String) (now : Nat) (idJag : String)
    (h1 : w.hop1 (mkHop1Request cfg idToken d1 now) = Except.ok idJag)
    (hne : idJag ≠ idToken) :
    responseIdJag (handleCrossAppAccess cfg true (some idToken) w d1 d2 now).response
      = some idJag ∧
    (∀ r2, HopCall.hop2 r2 ∈ (handleCrossAppAccess cfg true (some idToken) w d1 d2 now).calls →
      r2.assertion = idJag) ∧
    idJag ∉ (handleCrossAppAccess cfg true (some idToken) w d1 d2 now).loggedFullTokens := by
  cases h2 : w.hop2 (mkHop2Request cfg idJag d2 now) with
  | ok tokResp =>
    refine ⟨?_, ?_, ?_⟩
    · simp [handleCrossAppAccess, h1, h2, responseIdJag]
    · intro r2 hr2
      simp [handleCrossAppAccess, h1, h2] at hr2
      simp [hr2, mkHop2Request]
    · simp [handleCrossAppAccess, h1, h2, hne]
  | error e =>
    refine ⟨?_, ?_, ?_⟩
    · simp [handleCrossAppAccess, h1, h2, responseIdJag]
    · intro r2 hr2
      simp [handleCrossAppAccess, h1, h2] at hr2
      simp [hr2, mkHop2Request]
    · simp [handleCrossAppAccess, h1, h2, hne]

/-- C7 amended witness: on the concrete successful execution the ID-JAG is
in the response body, in the hop-2 request, and in no log line. -/
theorem idjag_exposure_amended_witness :
    responseIdJag
        (handleCrossAppAccess cfgEx true (some "id-token-1") wOk "0.rand1" "0.rand2" 0).response
      = some "jag-secret-value" :=
  (idjag_exposure_amended cfgEx "id-token-1" wOk "0.rand1" "0.rand2" 0 "jag-secret-value"
    (by rfl) (by decide)).1

/-- C8 counterexample: two client-assertion mint calls — for different hops,
audiences and times, consuming two distinct `Math.random().toString(36)`
draws — can still produce equal `jti` nonces, because the `jti` is the draw
truncated from index 7 on.  This refutes the claim that the nonces of two
mint calls are never equal. -/
theorem jti_collision_possible :
    ("0.aaaaarst" : String) ≠ "0.bbbbbrst" ∧
    (createClientAssertion "agent-client-id" "https://a.example/oauth2/v1/token"
        "0.aaaaarst" 0).jti =
      (createClientAssertion "agent-client-id" "https://b.example/oauth2/v1/token"
        "0.bbbbbrst" 60).jti :=
  ⟨by decide, rfl⟩

/-- C8 amended: the `jti` of a minted client assertion is exactly the
base-36 rendering of its fresh random draw truncated to the characters from
index 7 on; hence the `jti` nonces of two mint calls coincide exactly when
those truncations coincide — uniqueness is only probabilistic, not
guaranteed by construction. -/
theorem jti_equality_characterization (c₁ a₁ d₁ : String) (n₁ : Nat)
    (c₂ a₂ d₂ : String) (n₂ : Nat) :
    (createClientAssertion c₁ a₁ d₁ n₁).jti = (createClientAssertion c₂ a₂ d₂ n₂).jti ↔
      d₁.data.drop 7 = d₂.data.drop 7 := by
  simp only [createClientAssertion, jtiFromDraw]
  exact ⟨fun h => congrArg String.data h, fun h => congrArg String.mk h⟩

/-- C9: every client assertion sent during the exchange has
issuer = subject = the configured agent client identifier, audience equal
to the literal token-endpoint URL its request is POSTed to (the Org
endpoint for hop 1, the resource endpoint for hop 2), a `jti` nonce from
the hop's own fresh draw, and expiry exactly 300 seconds (≤ 5 minutes)
after issuance; each hop's request carries an assertion minted by its own
mint call rather than reusing the other hop's. -/
theorem client_assertion_contract (cfg : TokenExchangeConfig) (pk : Bool)
    (idtok : Option String) (w : World) (d1 d2 : String) (now : Nat) :
    (∀ r1, HopCall.hop1 r1 ∈ (handleCrossAppAccess cfg pk idtok w d1 d2 now).calls →
      r1.clientAssertion = createClientAssertion cfg.clientId (orgTokenUrl cfg) d1 now ∧
      r1.url = orgTokenUrl cfg ∧
      r1.clientAssertion.aud = r1.url ∧
      r1.clientAssertion.iss = cfg.clientId ∧
      r1.clientAssertion.sub = cfg.clientId ∧
      r1.clientAssertion.jti = jtiFromDraw d1 ∧
      r1.clientAssertion.exp = r1.clientAssertion.iat + 300 ∧
      r1.clientAssertion.exp ≤ r1.clientAssertion.iat + 5 * 60) ∧
    (∀ r2, HopCall.hop2 r2 ∈ (handleCrossAppAccess cfg pk idtok w d1 d2 now).calls →
      r2.clientAssertion = createClientAssertion cfg.clientId (resourceTokenUrl cfg) d2 now ∧
      r2.url = resourceTokenUrl cfg ∧
      r2.clientAssertion.aud = r2.url ∧
      r2.clientAssertion.iss = cfg.clientId ∧
      r2.clientAssertion.sub = cfg.clientId ∧
      r2.clientAssertion.jti = jtiFromDraw d2 ∧
      r2.clientAssertion.exp = r2.clientAssertion.iat + 300 ∧
      r2.clientAssertion.exp ≤ r2.clientAssertion.iat + 5 * 60) := by
  cases idtok with
  | none =>
    constructor <;> intro r hr <;> simp [handleCrossAppAccess] at hr
  | some idToken =>
    by_cases hpk : pk = false
    · constructor <;> intro r hr <;> simp [handleCrossAppAccess, hpk] at hr
    · cases h1 : w.hop1 (mkHop1Request cfg idToken d1 now) with
      | error e =>
        constructor
        · intro r1 hr1
          simp [handleCrossAppAccess, hpk, h1] at hr1
          simp [hr1, mkHop1Request, createClientAssertion]
        · intro r2 hr2
          simp [handleCrossAppAccess, hpk, h1] at hr2
      | ok idJag =>
        cases h2 : w.hop2 (mkHop2Request cfg idJag d2 now) with
        | ok tokResp =>
          constructor
          · intro r1 hr1
            simp [handleCrossAppAccess, hpk, h1, h2] at hr1
            simp [hr1, mkHop1Request, createClientAssertion]
          · intro r2 hr2
            simp [handleCrossAppAccess, hpk, h1, h2] at hr2
            simp [hr2, mkHop2Request, createClientAssertion]
        | error e =>
          constructor
          · intro r1 hr1
            simp [handleCrossAppAccess, hpk, h1, h2] at hr1
            simp [hr1, mkHop1Request, createClientAssertion]
          · intro r2 hr2
            simp [handleCrossAppAccess, hpk, h1, h2] at hr2
            simp [hr2, mkHop2Request, createClientAssertion]

/-- C9 witness: on the concrete successful execution, the hop-1 request's
client assertion has audience equal to the URL the request is POSTed to. -/
theorem client_assertion_contract_witness :
    (mkHop1Request cfgEx "id-token-1" "0.rand1" 0).clientAssertion.aud =
      (mkHop1Request cfgEx "id-token-1" "0.rand1" 0).url :=
  ((client_assertion_contract cfgEx true (some "id-token-1") wOk "0.rand1" "0.rand2" 0).1
    (mkHop1Request cfgEx "id-token-1" "0.rand1" 0) (by decide)).2.2.1

/-- C10 counterexample: the server is spawned with `TODO_ACCESS_TOKEN` set
to the spawn-time token; afterwards alice's `/cross-app-access` exchange
succeeds with a new token, yet the next tool call still carries the
spawn-time token and not the most recently exchanged one — the exchange's
environment write happens in the parent process and never reaches the
spawned server that `TodoService` runs in. -/
theorem exchange_token_not_used_by_tool :
    toolCallCredential (spawnMcpServer (some "spawn-time-token"))
        [AgentEvent.exchangeSuccess "alice" "alice-token"] "s1" "bob" =
      "Bearer spawn-time-token" ∧
    toolCallCredential (spawnMcpServer (some "spawn-time-token"))
        [AgentEvent.exchangeSuccess "alice" "alice-token"] "s1" "bob" ≠
      "Bearer alice-token" ∧
    lastExchangedToken [AgentEvent.exchangeSuccess "alice" "alice-token"] =
      some "alice-token" :=
  ⟨rfl, by decide, rfl⟩

/-- C10 amended: the MCP todo service resolves its backend bearer token
from the `TODO_ACCESS_TOKEN` variable of its own process environment,
copied from the parent when `client.ts` spawned the server; a successful
`/cross-app-access` exchange overwrites only the parent process's variable
(which does track the most recent exchange), so every tool call — on every
session and for every principal — is issued with the spawn-time token,
unaffected by any principal's exchange activity. -/
theorem tool_credential_is_spawn_time_token (parentTodo : Option String)
    (tr : List AgentEvent) (sid prin sid' prin' : String) :
    toolCallCredential (spawnMcpServer parentTodo) tr sid prin =
      "Bearer " ++ getAccessToken parentTodo ∧
    (envsAfter (spawnMcpServer parentTodo) tr).parentTodo =
      (lastExchangedToken tr).or parentTodo ∧
    toolCallCredential (spawnMcpServer parentTodo) tr sid prin =
      toolCallCredential (spawnMcpServer parentTodo) tr sid' prin' := by
  refine ⟨?_, ?_, rfl⟩
  · unfold toolCallCredential getHeadersAuthorization
    rw [envsAfter_childTodo]
    rfl
  · rw [envsAfter_parentTodo]
    rfl

end SecureAgent
